import Mathlib

/-!
Shallow embedding of the derivation engine `computeCalcs` of
`src/pages/Index.tsx` (DroneDeploy ROI calculator).

Numbers are modelled as rationals `ℚ`.  The engine guards every division by a
positivity test (or divides by a constant, or by `workingHoursPerDay ≥ 1`), so
no JavaScript division by zero is reachable and `ℚ` is a faithful carrier for
all finite values.  The two sentinel values `Infinity` produced for `roiPct`
and `paybackMonths` are modelled by the type `JsNum` below.

JavaScript `a || b` on numbers returns `b` exactly when `a` is falsy (`0`);
it is modelled by `jsOr`.  JavaScript `a ?? 0` returns `a` unless `a` is
`null`/`undefined`; the Input Record is complete (every key filled from
defaults, spec §3), so on this model `a ?? 0` is the identity and the field is
used directly.
-/

/-- JavaScript `a || b` on numbers: `b` when `a` is `0` (falsy), else `a`. -/
def jsOr (a b : ℚ) : ℚ := if a = 0 then b else a

/-- A JavaScript number that is either finite or the `Infinity` sentinel. -/
inductive JsNum where
  | fin (q : ℚ)
  | inf
deriving DecidableEq

/-- The numeric fields of the Input Record that `computeCalcs` reads
(destructured at the top of the function or accessed as `state.x`). -/
structure InputState where
  flightsPerWeek : ℚ
  weeksPerYear : ℚ
  teamMembers : ℚ
  manualHoursPerFlight : ℚ
  droneHoursPerFlight : ℚ
  hourlyRate : ℚ
  travelHoursSavedPerFlight : ℚ
  avgReworkCostPerProject : ℚ
  reworkRateBaseline : ℚ
  reworkRateWithDD : ℚ
  safetyIncidentsBaseline : ℚ
  safetyIncidentsWithDD : ℚ
  costPerSafetyIncident : ℚ
  softwareAnnualCost : ℚ
  hardwareAnnualCost : ℚ
  otherAnnualCosts : ℚ
  estimated_total_travel_costs_per_year : ℚ
  estimated_total_destructive_investigation_expenses_per_year : ℚ
  estimated_cost_of_organizing_and_sharing_images_per_year : ℚ
  estimated_cost_of_safety_and_qa_qc_inspections_per_year : ℚ
  estimated_total_insurance_costs_per_year : ℚ
  travel_reduction_pct : ℚ
  investigations_reduction_pct : ℚ
  doc_efficiency_improvement_pct : ℚ
  insurance_premium_reduction_pct : ℚ
  working_hours_per_day : ℚ
  revenue_per_day : ℚ
  average_construction_cost : ℚ
  number_of_projects_per_year : ℚ
  schedule_acceleration_pct : ℚ
  number_of_projects_you_submit_for_bid : ℚ
  win_rate_uplift_pct : ℚ
deriving DecidableEq

/-- The Derived Metrics Record returned by `computeCalcs`. -/
structure Calcs where
  flightsPerYear : ℚ
  timeSavedPerFlight : ℚ
  hoursSavedAnnual : ℚ
  laborSavings : ℚ
  travelSavings : ℚ
  reworkSavings : ℚ
  safetySavings : ℚ
  opsSavings : ℚ
  baseTravel : ℚ
  baseInvestigations : ℚ
  baseDoc : ℚ
  baseInsurance : ℚ
  travelSavings2 : ℚ
  diSavings : ℚ
  docSavings : ℚ
  insuranceSavings2 : ℚ
  workingHoursPerDay : ℚ
  revenuePerDay : ℚ
  scheduleDaysSaved : ℚ
  scheduleRevenueGain : ℚ
  winMoreRevenueGain : ℚ
  efficiencyGains2 : ℚ
  increasedRevenues2 : ℚ
  totalSavings : ℚ
  totalCosts : ℚ
  netAnnual : ℚ
  roiPct : JsNum
  paybackMonths : JsNum
  breakdown : List (String × ℚ)
deriving DecidableEq

/-- Source: `const flightsPerYear = flightsPerWeek * weeksPerYear;`. -/
def flightsPerYear (s : InputState) : ℚ := s.flightsPerWeek * s.weeksPerYear

/-- Source: `Math.max(0, manualHoursPerFlight - droneHoursPerFlight) * Math.max(1, teamMembers)`. -/
def timeSavedPerFlight (s : InputState) : ℚ :=
  max 0 (s.manualHoursPerFlight - s.droneHoursPerFlight) * max 1 s.teamMembers

/-- Source: `const hoursSavedAnnual = flightsPerYear * timeSavedPerFlight;`. -/
def hoursSavedAnnual (s : InputState) : ℚ := flightsPerYear s * timeSavedPerFlight s

/-- Source: `const laborSavings = hoursSavedAnnual * hourlyRate;`. -/
def laborSavings (s : InputState) : ℚ := hoursSavedAnnual s * s.hourlyRate

/-- Source: `flightsPerYear * Math.max(0, travelHoursSavedPerFlight) * hourlyRate * Math.max(1, teamMembers)`. -/
def travelSavings (s : InputState) : ℚ :=
  flightsPerYear s * max 0 s.travelHoursSavedPerFlight * s.hourlyRate * max 1 s.teamMembers

/-- Source: `const deltaReworkRate = Math.max(0, reworkRateBaseline - reworkRateWithDD);`. -/
def deltaReworkRate (s : InputState) : ℚ := max 0 (s.reworkRateBaseline - s.reworkRateWithDD)

/-- Source: `flightsPerYear * deltaReworkRate * Math.max(0, avgReworkCostPerProject)`. -/
def reworkSavings (s : InputState) : ℚ :=
  flightsPerYear s * deltaReworkRate s * max 0 s.avgReworkCostPerProject

/-- Source: `const safetyDelta = Math.max(0, safetyIncidentsBaseline - safetyIncidentsWithDD);`. -/
def safetyDelta (s : InputState) : ℚ := max 0 (s.safetyIncidentsBaseline - s.safetyIncidentsWithDD)

/-- Source: `const safetySavings = safetyDelta * Math.max(0, costPerSafetyIncident);`. -/
def safetySavings (s : InputState) : ℚ := safetyDelta s * max 0 s.costPerSafetyIncident

/-- Source: `const opsSavings = laborSavings + travelSavings + reworkSavings + safetySavings;`. -/
def opsSavings (s : InputState) : ℚ :=
  laborSavings s + travelSavings s + reworkSavings s + safetySavings s

/-- Source: `Math.max(0, state.estimated_total_travel_costs_per_year || 0)`. -/
def baseTravel (s : InputState) : ℚ :=
  max 0 (jsOr s.estimated_total_travel_costs_per_year 0)

/-- Source: `Math.max(0, state.estimated_total_destructive_investigation_expenses_per_year || 0)`. -/
def baseInvestigations (s : InputState) : ℚ :=
  max 0 (jsOr s.estimated_total_destructive_investigation_expenses_per_year 0)

/-- Source: `Math.max(0, (state.estimated_cost_of_organizing_and_sharing_images_per_year || 0) + (state.estimated_cost_of_safety_and_qa_qc_inspections_per_year || 0))`. -/
def baseDoc (s : InputState) : ℚ :=
  max 0 (jsOr s.estimated_cost_of_organizing_and_sharing_images_per_year 0 +
    jsOr s.estimated_cost_of_safety_and_qa_qc_inspections_per_year 0)

/-- Source: `Math.max(0, state.estimated_total_insurance_costs_per_year || 0)`. -/
def baseInsurance (s : InputState) : ℚ :=
  max 0 (jsOr s.estimated_total_insurance_costs_per_year 0)

/-- Source: `baseTravel * Math.max(0, state.travel_reduction_pct ?? 0)`;
`?? 0` is the identity on a complete numeric record. -/
def travelSavings2 (s : InputState) : ℚ := baseTravel s * max 0 s.travel_reduction_pct

/-- Source: `baseInvestigations * Math.max(0, state.investigations_reduction_pct ?? 0)`. -/
def diSavings (s : InputState) : ℚ := baseInvestigations s * max 0 s.investigations_reduction_pct

/-- Source: `baseDoc * Math.max(0, state.doc_efficiency_improvement_pct ?? 0)`. -/
def docSavings (s : InputState) : ℚ := baseDoc s * max 0 s.doc_efficiency_improvement_pct

/-- Source: `baseInsurance * Math.max(0, state.insurance_premium_reduction_pct ?? 0)`. -/
def insuranceSavings2 (s : InputState) : ℚ :=
  baseInsurance s * max 0 s.insurance_premium_reduction_pct

/-- Source: `const workingHoursPerDay = Math.max(1, state.working_hours_per_day || 8);`. -/
def workingHoursPerDay (s : InputState) : ℚ := max 1 (jsOr s.working_hours_per_day 8)

/-- Source: `Math.max(0, state.revenue_per_day || (((state.average_construction_cost || 0) * Math.max(0, state.number_of_projects_per_year || 0)) / 365))`. -/
def revenuePerDay (s : InputState) : ℚ :=
  max 0 (jsOr s.revenue_per_day
    (jsOr s.average_construction_cost 0 *
      max 0 (jsOr s.number_of_projects_per_year 0) / 365))

/-- Source: `(hoursSavedAnnual / workingHoursPerDay) * Math.max(0, state.schedule_acceleration_pct ?? 0)`. -/
def scheduleDaysSaved (s : InputState) : ℚ :=
  hoursSavedAnnual s / workingHoursPerDay s * max 0 s.schedule_acceleration_pct

/-- Source: `const scheduleRevenueGain = revenuePerDay * scheduleDaysSaved;`. -/
def scheduleRevenueGain (s : InputState) : ℚ := revenuePerDay s * scheduleDaysSaved s

/-- Source: `Math.max(0, (state.average_construction_cost || 0) * Math.max(0, state.number_of_projects_you_submit_for_bid || 0) * Math.max(0, state.win_rate_uplift_pct ?? 0))`. -/
def winMoreRevenueGain (s : InputState) : ℚ :=
  max 0 (jsOr s.average_construction_cost 0 *
    max 0 (jsOr s.number_of_projects_you_submit_for_bid 0) *
    max 0 s.win_rate_uplift_pct)

/-- Source: `const efficiencyGains2 = travelSavings2 + diSavings + docSavings + insuranceSavings2;`. -/
def efficiencyGains2 (s : InputState) : ℚ :=
  travelSavings2 s + diSavings s + docSavings s + insuranceSavings2 s

/-- Source: `const increasedRevenues2 = scheduleRevenueGain + winMoreRevenueGain;`. -/
def increasedRevenues2 (s : InputState) : ℚ := scheduleRevenueGain s + winMoreRevenueGain s

/-- Source: `const totalSavings = opsSavings + efficiencyGains2 + increasedRevenues2;`. -/
def totalSavings (s : InputState) : ℚ := opsSavings s + efficiencyGains2 s + increasedRevenues2 s

/-- Source: `Math.max(0, softwareAnnualCost) + Math.max(0, hardwareAnnualCost) + Math.max(0, otherAnnualCosts)`. -/
def totalCosts (s : InputState) : ℚ :=
  max 0 s.softwareAnnualCost + max 0 s.hardwareAnnualCost + max 0 s.otherAnnualCosts

/-- Source: `const netAnnual = totalSavings - totalCosts;`. -/
def netAnnual (s : InputState) : ℚ := totalSavings s - totalCosts s

/-- Source: `const roiPct = totalCosts > 0 ? netAnnual / totalCosts : Infinity;`. -/
def roiPct (s : InputState) : JsNum :=
  if 0 < totalCosts s then .fin (netAnnual s / totalCosts s) else .inf

/-- Source: `const paybackMonths = totalSavings > 0 ? (totalCosts / totalSavings) * 12 : Infinity;`. -/
def paybackMonths (s : InputState) : JsNum :=
  if 0 < totalSavings s then .fin (totalCosts s / totalSavings s * 12) else .inf

/-- Source: the `breakdown` array literal of ten `{label, value}` entries. -/
def breakdown (s : InputState) : List (String × ℚ) :=
  [("Ops: Labor time saved", laborSavings s),
   ("Ops: Travel time saved", travelSavings s),
   ("Ops: Rework reduction", reworkSavings s),
   ("Ops: Safety risk reduction", safetySavings s),
   ("Travel reduction (from spreadsheet)", travelSavings2 s),
   ("Destructive investigations avoided", diSavings s),
   ("Documentation efficiency", docSavings s),
   ("Insurance premium reduction", insuranceSavings2 s),
   ("Schedule acceleration (days→revenue)", scheduleRevenueGain s),
   ("Win-rate uplift (revenue)", winMoreRevenueGain s)]

/-- The derivation engine: the return object of `computeCalcs`. -/
def computeCalcs (s : InputState) : Calcs :=
  { flightsPerYear := flightsPerYear s
    timeSavedPerFlight := timeSavedPerFlight s
    hoursSavedAnnual := hoursSavedAnnual s
    laborSavings := laborSavings s
    travelSavings := travelSavings s
    reworkSavings := reworkSavings s
    safetySavings := safetySavings s
    opsSavings := opsSavings s
    baseTravel := baseTravel s
    baseInvestigations := baseInvestigations s
    baseDoc := baseDoc s
    baseInsurance := baseInsurance s
    travelSavings2 := travelSavings2 s
    diSavings := diSavings s
    docSavings := docSavings s
    insuranceSavings2 := insuranceSavings2 s
    workingHoursPerDay := workingHoursPerDay s
    revenuePerDay := revenuePerDay s
    scheduleDaysSaved := scheduleDaysSaved s
    scheduleRevenueGain := scheduleRevenueGain s
    winMoreRevenueGain := winMoreRevenueGain s
    efficiencyGains2 := efficiencyGains2 s
    increasedRevenues2 := increasedRevenues2 s
    totalSavings := totalSavings s
    totalCosts := totalCosts s
    netAnnual := netAnnual s
    roiPct := roiPct s
    paybackMonths := paybackMonths s
    breakdown := breakdown s }

/-- Bool-valued check that every breakdown value is nonnegative. -/
def nonnegBreakdown (c : Calcs) : Bool :=
  c.breakdown.all fun p => decide (0 ≤ p.2)

/-- An Input Record with every numeric field zero; base point for concrete tests. -/
def zeroState : InputState :=
  { flightsPerWeek := 0
    weeksPerYear := 0
    teamMembers := 0
    manualHoursPerFlight := 0
    droneHoursPerFlight := 0
    hourlyRate := 0
    travelHoursSavedPerFlight := 0
    avgReworkCostPerProject := 0
    reworkRateBaseline := 0
    reworkRateWithDD := 0
    safetyIncidentsBaseline := 0
    safetyIncidentsWithDD := 0
    costPerSafetyIncident := 0
    softwareAnnualCost := 0
    hardwareAnnualCost := 0
    otherAnnualCosts := 0
    estimated_total_travel_costs_per_year := 0
    estimated_total_destructive_investigation_expenses_per_year := 0
    estimated_cost_of_organizing_and_sharing_images_per_year := 0
    estimated_cost_of_safety_and_qa_qc_inspections_per_year := 0
    estimated_total_insurance_costs_per_year := 0
    travel_reduction_pct := 0
    investigations_reduction_pct := 0
    doc_efficiency_improvement_pct := 0
    insurance_premium_reduction_pct := 0
    working_hours_per_day := 0
    revenue_per_day := 0
    average_construction_cost := 0
    number_of_projects_per_year := 0
    schedule_acceleration_pct := 0
    number_of_projects_you_submit_for_bid := 0
    win_rate_uplift_pct := 0 }

/-- The numeric engine inputs of the source `DEFAULTS` object. -/
def defaultState : InputState :=
  { flightsPerWeek := 5
    weeksPerYear := 48
    teamMembers := 2
    manualHoursPerFlight := 3
    droneHoursPerFlight := 1
    hourlyRate := 75
    travelHoursSavedPerFlight := 1
    avgReworkCostPerProject := 1200
    reworkRateBaseline := 0.12
    reworkRateWithDD := 0.05
    safetyIncidentsBaseline := 2
    safetyIncidentsWithDD := 1
    costPerSafetyIncident := 5000
    softwareAnnualCost := 12000
    hardwareAnnualCost := 5000
    otherAnnualCosts := 2000
    estimated_total_travel_costs_per_year := 139644
    estimated_total_destructive_investigation_expenses_per_year := 57600
    estimated_cost_of_organizing_and_sharing_images_per_year := 78750
    estimated_cost_of_safety_and_qa_qc_inspections_per_year := 504000
    estimated_total_insurance_costs_per_year := 1350000
    travel_reduction_pct := 0.5
    investigations_reduction_pct := 0.5
    doc_efficiency_improvement_pct := 0.0062
    insurance_premium_reduction_pct := 0.1
    working_hours_per_day := 8
    revenue_per_day := 123288
    average_construction_cost := 15000000
    number_of_projects_per_year := 3
    schedule_acceleration_pct := 0.3333
    number_of_projects_you_submit_for_bid := 6
    win_rate_uplift_pct := 0.5 }

/-- Defaults with a negative hourly rate: exhibits a negative breakdown value. -/
def negRateState : InputState := { defaultState with hourlyRate := -75 }

/-- Default record with a strictly negative direct revenue-per-day figure. -/
def negRevenueState : InputState := { defaultState with revenue_per_day := -1 }

/-- Zero record except one safety incident avoided at cost 500: total savings
are exactly 500 while total costs are 0. -/
def zeroCostState : InputState :=
  { zeroState with safetyIncidentsBaseline := 1, costPerSafetyIncident := 500 }

/-- Zero record with construction cost 3650 and 10 projects per year, so the
revenue-per-day fallback is exercised. -/
def fallbackState : InputState :=
  { zeroState with average_construction_cost := 3650, number_of_projects_per_year := 10 }

/-- JavaScript `a || 0` is the identity on numbers. -/
theorem jsOr_self_zero (a : ℚ) : jsOr a 0 = a := by
  by_cases h : a = 0 <;> simp [jsOr, h]

/-- A truthy (nonzero) left operand short-circuits `a || b`. -/
theorem jsOr_of_ne {a : ℚ} (h : a ≠ 0) (b : ℚ) : jsOr a b = a := by simp [jsOr, h]

/-- A falsy (zero) left operand yields the right operand of `a || b`. -/
theorem jsOr_of_eq_zero {a : ℚ} (h : a = 0) (b : ℚ) : jsOr a b = b := by simp [jsOr, h]

theorem flightsPerYear_nonneg {s : InputState} (h1 : 0 ≤ s.flightsPerWeek)
    (h2 : 0 ≤ s.weeksPerYear) : 0 ≤ flightsPerYear s := mul_nonneg h1 h2

theorem timeSavedPerFlight_nonneg (s : InputState) : 0 ≤ timeSavedPerFlight s := by
  unfold timeSavedPerFlight
  exact mul_nonneg (le_max_left 0 _) (le_trans zero_le_one (le_max_left 1 _))

theorem hoursSavedAnnual_nonneg {s : InputState} (h1 : 0 ≤ s.flightsPerWeek)
    (h2 : 0 ≤ s.weeksPerYear) : 0 ≤ hoursSavedAnnual s :=
  mul_nonneg (flightsPerYear_nonneg h1 h2) (timeSavedPerFlight_nonneg s)

theorem laborSavings_nonneg {s : InputState} (h1 : 0 ≤ s.flightsPerWeek)
    (h2 : 0 ≤ s.weeksPerYear) (h3 : 0 ≤ s.hourlyRate) : 0 ≤ laborSavings s :=
  mul_nonneg (hoursSavedAnnual_nonneg h1 h2) h3

theorem travelSavings_nonneg {s : InputState} (h1 : 0 ≤ s.flightsPerWeek)
    (h2 : 0 ≤ s.weeksPerYear) (h3 : 0 ≤ s.hourlyRate) : 0 ≤ travelSavings s := by
  unfold travelSavings
  exact mul_nonneg
    (mul_nonneg (mul_nonneg (flightsPerYear_nonneg h1 h2) (le_max_left 0 _)) h3)
    (le_trans zero_le_one (le_max_left 1 _))

theorem reworkSavings_nonneg {s : InputState} (h1 : 0 ≤ s.flightsPerWeek)
    (h2 : 0 ≤ s.weeksPerYear) : 0 ≤ reworkSavings s := by
  unfold reworkSavings deltaReworkRate
  exact mul_nonneg (mul_nonneg (flightsPerYear_nonneg h1 h2) (le_max_left 0 _)) (le_max_left 0 _)

theorem safetySavings_nonneg (s : InputState) : 0 ≤ safetySavings s := by
  unfold safetySavings safetyDelta
  exact mul_nonneg (le_max_left 0 _) (le_max_left 0 _)

theorem travelSavings2_nonneg (s : InputState) : 0 ≤ travelSavings2 s := by
  unfold travelSavings2 baseTravel
  exact mul_nonneg (le_max_left 0 _) (le_max_left 0 _)

theorem diSavings_nonneg (s : InputState) : 0 ≤ diSavings s := by
  unfold diSavings baseInvestigations
  exact mul_nonneg (le_max_left 0 _) (le_max_left 0 _)

theorem docSavings_nonneg (s : InputState) : 0 ≤ docSavings s := by
  unfold docSavings baseDoc
  exact mul_nonneg (le_max_left 0 _) (le_max_left 0 _)

theorem insuranceSavings2_nonneg (s : InputState) : 0 ≤ insuranceSavings2 s := by
  unfold insuranceSavings2 baseInsurance
  exact mul_nonneg (le_max_left 0 _) (le_max_left 0 _)

theorem revenuePerDay_nonneg (s : InputState) : 0 ≤ revenuePerDay s := le_max_left 0 _

theorem workingHoursPerDay_pos (s : InputState) : 0 < workingHoursPerDay s :=
  lt_of_lt_of_le zero_lt_one (le_max_left 1 _)

theorem scheduleDaysSaved_nonneg {s : InputState} (h1 : 0 ≤ s.flightsPerWeek)
    (h2 : 0 ≤ s.weeksPerYear) : 0 ≤ scheduleDaysSaved s := by
  unfold scheduleDaysSaved
  exact mul_nonneg
    (div_nonneg (hoursSavedAnnual_nonneg h1 h2) (workingHoursPerDay_pos s).le)
    (le_max_left 0 _)

theorem scheduleRevenueGain_nonneg {s : InputState} (h1 : 0 ≤ s.flightsPerWeek)
    (h2 : 0 ≤ s.weeksPerYear) : 0 ≤ scheduleRevenueGain s :=
  mul_nonneg (revenuePerDay_nonneg s) (scheduleDaysSaved_nonneg h1 h2)

theorem winMoreRevenueGain_nonneg (s : InputState) : 0 ≤ winMoreRevenueGain s :=
  le_max_left 0 _

/-- C1 counterexample: with the default inputs but `hourlyRate = -75`
(`hourlyRate` is not clamped), the labor-savings breakdown entry is `-72000`,
a strictly negative breakdown value. -/
theorem C1_counterexample :
    ("Ops: Labor time saved", (computeCalcs negRateState).laborSavings) ∈
      (computeCalcs negRateState).breakdown ∧
    (computeCalcs negRateState).laborSavings < 0 := by
  constructor
  · simp [computeCalcs, breakdown]
  · norm_num [computeCalcs, laborSavings, hoursSavedAnnual, flightsPerYear,
      timeSavedPerFlight, negRateState, defaultState]

/-- C1 (amended): whenever `flightsPerWeek`, `weeksPerYear` and `hourlyRate`
are nonnegative, every one of the ten values in the breakdown sequence
returned by `computeCalcs` is nonnegative. -/
theorem C1_theorem (s : InputState) (h1 : 0 ≤ s.flightsPerWeek)
    (h2 : 0 ≤ s.weeksPerYear) (h3 : 0 ≤ s.hourlyRate) :
    nonnegBreakdown (computeCalcs s) = true := by
  simp only [nonnegBreakdown, computeCalcs, breakdown, List.all_cons, List.all_nil,
    Bool.and_true, Bool.and_eq_true, decide_eq_true_eq]
  exact ⟨laborSavings_nonneg h1 h2 h3, travelSavings_nonneg h1 h2 h3,
    reworkSavings_nonneg h1 h2, safetySavings_nonneg s, travelSavings2_nonneg s,
    diSavings_nonneg s, docSavings_nonneg s, insuranceSavings2_nonneg s,
    scheduleRevenueGain_nonneg h1 h2, winMoreRevenueGain_nonneg s⟩

/-- C1 witness: the default inputs satisfy the hypotheses and every breakdown
value is nonnegative there. -/
theorem C1_witness : nonnegBreakdown (computeCalcs defaultState) = true :=
  C1_theorem defaultState (by norm_num [defaultState]) (by norm_num [defaultState])
    (by norm_num [defaultState])

/-- C2 counterexample: with `working_hours_per_day = 0`, the engine uses
`workingHoursPerDay = 8` (the `|| 8` default fires before the clamp), not
`max(1, working_hours_per_day) = 1` as the claim states. -/
theorem C2_counterexample :
    (computeCalcs zeroState).workingHoursPerDay = 8 ∧
    max 1 zeroState.working_hours_per_day = 1 ∧
    (computeCalcs zeroState).workingHoursPerDay ≠ max 1 zeroState.working_hours_per_day := by
  refine ⟨?_, ?_, ?_⟩ <;>
    norm_num [computeCalcs, workingHoursPerDay, jsOr, zeroState]

/-- C2 (amended): the engine clamps the group-2 bases and their reduction
percentages via `max(0, .)` (both operands of each of the four category
savings), clamps travel hours and the three annual costs via `max(0, .)`,
uses the team factor `max(1, teamMembers)`, and uses
`workingHoursPerDay = max(1, working_hours_per_day || 8)` — which equals
`max(1, working_hours_per_day)` only when that input is nonzero; but
`flightsPerWeek`, `weeksPerYear` and `hourlyRate` enter the formulas
unclamped. -/
theorem C2_theorem (s : InputState) :
    (computeCalcs s).workingHoursPerDay = max 1 (jsOr s.working_hours_per_day 8) ∧
    (s.working_hours_per_day ≠ 0 →
      (computeCalcs s).workingHoursPerDay = max 1 s.working_hours_per_day) ∧
    (computeCalcs s).timeSavedPerFlight =
      max 0 (s.manualHoursPerFlight - s.droneHoursPerFlight) * max 1 s.teamMembers ∧
    (computeCalcs s).laborSavings =
      s.flightsPerWeek * s.weeksPerYear *
        (max 0 (s.manualHoursPerFlight - s.droneHoursPerFlight) * max 1 s.teamMembers) *
        s.hourlyRate ∧
    (computeCalcs s).travelSavings =
      s.flightsPerWeek * s.weeksPerYear * max 0 s.travelHoursSavedPerFlight *
        s.hourlyRate * max 1 s.teamMembers ∧
    (computeCalcs s).travelSavings2 =
      max 0 (jsOr s.estimated_total_travel_costs_per_year 0) *
        max 0 s.travel_reduction_pct ∧
    (computeCalcs s).diSavings =
      max 0 (jsOr s.estimated_total_destructive_investigation_expenses_per_year 0) *
        max 0 s.investigations_reduction_pct ∧
    (computeCalcs s).docSavings =
      max 0 (jsOr s.estimated_cost_of_organizing_and_sharing_images_per_year 0 +
          jsOr s.estimated_cost_of_safety_and_qa_qc_inspections_per_year 0) *
        max 0 s.doc_efficiency_improvement_pct ∧
    (computeCalcs s).insuranceSavings2 =
      max 0 (jsOr s.estimated_total_insurance_costs_per_year 0) *
        max 0 s.insurance_premium_reduction_pct ∧
    (computeCalcs s).totalCosts =
      max 0 s.softwareAnnualCost + max 0 s.hardwareAnnualCost + max 0 s.otherAnnualCosts := by
  refine ⟨rfl, ?_, rfl, rfl, rfl, rfl, rfl, rfl, rfl, rfl⟩
  intro h
  simp only [computeCalcs, workingHoursPerDay, jsOr_of_ne h]

/-- C2 witness: at the defaults (`working_hours_per_day = 8 ≠ 0`) the claimed
clamp shape does hold. -/
theorem C2_witness :
    (computeCalcs defaultState).workingHoursPerDay =
      max 1 defaultState.working_hours_per_day :=
  (C2_theorem defaultState).2.1 (by norm_num [defaultState])

/-- C3: `roiPct` is `netAnnual / totalCosts` for positive total costs and the
infinity sentinel at zero total costs; `paybackMonths` is
`(totalCosts / totalSavings) * 12` for positive total savings and the infinity
sentinel at zero total savings; with all three cost inputs zero and total
savings 500 the ROI is infinite and payback is 0 months; with all ten savings
terms zero and positive costs, payback is infinite and the ROI ratio is -1. -/
theorem C3_theorem (s : InputState) :
    (0 < (computeCalcs s).totalCosts →
      (computeCalcs s).roiPct =
        JsNum.fin ((computeCalcs s).netAnnual / (computeCalcs s).totalCosts)) ∧
    ((computeCalcs s).totalCosts = 0 → (computeCalcs s).roiPct = JsNum.inf) ∧
    (0 < (computeCalcs s).totalSavings →
      (computeCalcs s).paybackMonths =
        JsNum.fin ((computeCalcs s).totalCosts / (computeCalcs s).totalSavings * 12)) ∧
    ((computeCalcs s).totalSavings = 0 → (computeCalcs s).paybackMonths = JsNum.inf) ∧
    (s.softwareAnnualCost = 0 → s.hardwareAnnualCost = 0 → s.otherAnnualCosts = 0 →
      (computeCalcs s).totalSavings = 500 →
      (computeCalcs s).roiPct = JsNum.inf ∧
      (computeCalcs s).paybackMonths = JsNum.fin 0) ∧
    ((computeCalcs s).laborSavings = 0 → (computeCalcs s).travelSavings = 0 →
      (computeCalcs s).reworkSavings = 0 → (computeCalcs s).safetySavings = 0 →
      (computeCalcs s).travelSavings2 = 0 → (computeCalcs s).diSavings = 0 →
      (computeCalcs s).docSavings = 0 → (computeCalcs s).insuranceSavings2 = 0 →
      (computeCalcs s).scheduleRevenueGain = 0 → (computeCalcs s).winMoreRevenueGain = 0 →
      0 < (computeCalcs s).totalCosts →
      (computeCalcs s).paybackMonths = JsNum.inf ∧
      (computeCalcs s).roiPct = JsNum.fin (-1)) := by
  refine ⟨?_, ?_, ?_, ?_, ?_, ?_⟩ <;> simp only [computeCalcs]
  · intro h; rw [roiPct, if_pos h]
  · intro h; rw [roiPct, if_neg (by rw [h]; exact lt_irrefl 0)]
  · intro h; rw [paybackMonths, if_pos h]
  · intro h; rw [paybackMonths, if_neg (by rw [h]; exact lt_irrefl 0)]
  · intro h1 h2 h3 hS
    have hC : totalCosts s = 0 := by simp [totalCosts, h1, h2, h3]
    constructor
    · rw [roiPct, if_neg (by rw [hC]; exact lt_irrefl 0)]
    · rw [paybackMonths, if_pos (by rw [hS]; norm_num), hS, hC]
      norm_num
  · intro hl ht hr hsf ht2 hd hdoc hi hsch hw hc
    have hS : totalSavings s = 0 := by
      simp only [totalSavings, opsSavings, efficiencyGains2, increasedRevenues2,
        hl, ht, hr, hsf, ht2, hd, hdoc, hi, hsch, hw]
      norm_num
    refine ⟨?_, ?_⟩
    · rw [paybackMonths, if_neg (by rw [hS]; exact lt_irrefl 0)]
    · have hv : netAnnual s / totalCosts s = -1 := by
        rw [netAnnual, hS, div_eq_iff (ne_of_gt hc)]; ring
      rw [roiPct, if_pos hc, hv]

/-- C3 witness: at the zero-cost record with total savings 500, the ROI is the
infinity sentinel and the payback is 0 months. -/
theorem C3_witness :
    (computeCalcs zeroCostState).roiPct = JsNum.inf ∧
    (computeCalcs zeroCostState).paybackMonths = JsNum.fin 0 :=
  (C3_theorem zeroCostState).2.2.2.2.1 rfl rfl rfl
    (by norm_num [computeCalcs, totalSavings, opsSavings, efficiencyGains2,
      increasedRevenues2, laborSavings, hoursSavedAnnual, flightsPerYear,
      timeSavedPerFlight, travelSavings, reworkSavings, deltaReworkRate, safetySavings,
      safetyDelta, travelSavings2, diSavings, docSavings, insuranceSavings2, baseTravel,
      baseInvestigations, baseDoc, baseInsurance, scheduleRevenueGain, revenuePerDay,
      scheduleDaysSaved, workingHoursPerDay, winMoreRevenueGain, jsOr, zeroCostState,
      zeroState])

/-- C4 counterexample: with a negative (truthy) direct `revenue_per_day = -1`,
the internally used value is `0`, not the directly supplied figure. -/
theorem C4_counterexample :
    negRevenueState.revenue_per_day = -1 ∧
    (computeCalcs negRevenueState).revenuePerDay = 0 ∧
    (computeCalcs negRevenueState).revenuePerDay ≠ negRevenueState.revenue_per_day := by
  refine ⟨?_, ?_, ?_⟩ <;>
    norm_num [computeCalcs, revenuePerDay, jsOr, negRevenueState, defaultState]

/-- C4 (amended): the internally used revenue-per-day equals
`max(0, (average_construction_cost || 0) * max(0, number_of_projects_per_year || 0) / 365)`
when the direct figure is falsy/zero, and `max(0, revenue_per_day)` (the clamped
direct figure) otherwise; in particular with `revenue_per_day = 0`,
`average_construction_cost = 3650`, `number_of_projects_per_year = 10` it is 100. -/
theorem C4_theorem (s : InputState) :
    (s.revenue_per_day = 0 →
      (computeCalcs s).revenuePerDay =
        max 0 (jsOr s.average_construction_cost 0 *
          max 0 (jsOr s.number_of_projects_per_year 0) / 365)) ∧
    (s.revenue_per_day ≠ 0 →
      (computeCalcs s).revenuePerDay = max 0 s.revenue_per_day) ∧
    (s.revenue_per_day = 0 → s.average_construction_cost = 3650 →
      s.number_of_projects_per_year = 10 → (computeCalcs s).revenuePerDay = 100) := by
  refine ⟨?_, ?_, ?_⟩ <;> simp only [computeCalcs]
  · intro h; rw [revenuePerDay, jsOr_of_eq_zero h]
  · intro h; rw [revenuePerDay, jsOr_of_ne h]
  · intro h1 h2 h3
    rw [revenuePerDay, jsOr_of_eq_zero h1, h2, h3]
    norm_num [jsOr]

/-- C4 witness: the fallback record (`revenue_per_day = 0`, construction cost
3650, 10 projects) yields an internal revenue-per-day of 100. -/
theorem C4_witness : (computeCalcs fallbackState).revenuePerDay = 100 :=
  (C4_theorem fallbackState).2.2 rfl rfl rfl

/-- C5: when the baseline rework rate does not exceed the DroneDeploy rework
rate the rework savings are zero, and when baseline incidents do not exceed
incidents with DroneDeploy the safety savings are zero. -/
theorem C5_theorem (s : InputState) :
    (s.reworkRateBaseline ≤ s.reworkRateWithDD → (computeCalcs s).reworkSavings = 0) ∧
    (s.safetyIncidentsBaseline ≤ s.safetyIncidentsWithDD →
      (computeCalcs s).safetySavings = 0) := by
  constructor <;> simp only [computeCalcs] <;> intro h
  · rw [reworkSavings, deltaReworkRate, max_eq_left (by linarith), mul_zero, zero_mul]
  · rw [safetySavings, safetyDelta, max_eq_left (by linarith), zero_mul]

/-- C5 witness: at the all-zero record both floor invariants apply and both
savings terms are zero. -/
theorem C5_witness :
    (computeCalcs zeroState).reworkSavings = 0 ∧
    (computeCalcs zeroState).safetySavings = 0 :=
  ⟨(C5_theorem zeroState).1 le_rfl, (C5_theorem zeroState).2 le_rfl⟩

/-- C6: with `flightsPerWeek = 5`, `weeksPerYear = 48`, `teamMembers = 2`,
`manualHoursPerFlight = 3`, `droneHoursPerFlight = 1` and `hourlyRate = 75`,
the engine yields 240 flights per year, 4 hours saved per flight, 960 hours
saved annually and labor savings of 72000. -/
theorem C6_theorem (s : InputState) (h1 : s.flightsPerWeek = 5)
    (h2 : s.weeksPerYear = 48) (h3 : s.teamMembers = 2)
    (h4 : s.manualHoursPerFlight = 3) (h5 : s.droneHoursPerFlight = 1)
    (h6 : s.hourlyRate = 75) :
    (computeCalcs s).flightsPerYear = 240 ∧
    (computeCalcs s).timeSavedPerFlight = 4 ∧
    (computeCalcs s).hoursSavedAnnual = 960 ∧
    (computeCalcs s).laborSavings = 72000 := by
  refine ⟨?_, ?_, ?_, ?_⟩ <;>
    norm_num [computeCalcs, laborSavings, hoursSavedAnnual, flightsPerYear,
      timeSavedPerFlight, h1, h2, h3, h4, h5, h6]

/-- C6 witness: the source defaults instantiate the hypotheses and produce the
four stated values. -/
theorem C6_witness :
    (computeCalcs defaultState).flightsPerYear = 240 ∧
    (computeCalcs defaultState).timeSavedPerFlight = 4 ∧
    (computeCalcs defaultState).hoursSavedAnnual = 960 ∧
    (computeCalcs defaultState).laborSavings = 72000 :=
  C6_theorem defaultState rfl rfl rfl rfl rfl rfl

/-- C7: for every Input Record the breakdown has exactly ten entries whose
labels are these ten strings in this fixed order; nothing is filtered. -/
theorem C7_theorem (s : InputState) :
    (computeCalcs s).breakdown.length = 10 ∧
    (computeCalcs s).breakdown.map Prod.fst =
      ["Ops: Labor time saved", "Ops: Travel time saved", "Ops: Rework reduction",
       "Ops: Safety risk reduction", "Travel reduction (from spreadsheet)",
       "Destructive investigations avoided", "Documentation efficiency",
       "Insurance premium reduction", "Schedule acceleration (days→revenue)",
       "Win-rate uplift (revenue)"] :=
  ⟨rfl, rfl⟩

/-- C8: the total savings returned by the engine equal the sum of the ten
breakdown values. -/
theorem C8_theorem (s : InputState) :
    (computeCalcs s).totalSavings = ((computeCalcs s).breakdown.map Prod.snd).sum := by
  simp only [computeCalcs, breakdown, List.map_cons, List.map_nil, List.sum_cons,
    List.sum_nil, totalSavings, opsSavings, efficiencyGains2, increasedRevenues2]
  ring

/-- C9: the engine is deterministic — equal Input Records yield equal Derived
Metrics Records. -/
theorem C9_theorem (s t : InputState) (h : s = t) : computeCalcs s = computeCalcs t := by
  rw [h]

/-- C9 witness: two invocations on the default record agree. -/
theorem C9_witness : computeCalcs defaultState = computeCalcs defaultState :=
  C9_theorem defaultState defaultState rfl

/-- C10: a strictly negative direct `revenue_per_day` is truthy, so the
fallback is not applied; the clamp then absorbs the negative figure, the
internal revenue-per-day is 0, and the schedule revenue gain vanishes. -/
theorem C10_theorem (s : InputState) (h : s.revenue_per_day < 0) :
    (computeCalcs s).revenuePerDay = max 0 s.revenue_per_day ∧
    (computeCalcs s).revenuePerDay = 0 ∧
    (0 ≤ (computeCalcs s).scheduleDaysSaved →
      (computeCalcs s).scheduleRevenueGain = 0) := by
  have h0 : revenuePerDay s = 0 := by
    rw [revenuePerDay, jsOr_of_ne (ne_of_lt h), max_eq_left h.le]
  refine ⟨?_, ?_, ?_⟩ <;> simp only [computeCalcs]
  · rw [revenuePerDay, jsOr_of_ne (ne_of_lt h)]
  · exact h0
  · intro _
    rw [scheduleRevenueGain, h0, zero_mul]

/-- C10 witness: with `revenue_per_day = -1` over the defaults, the internal
revenue-per-day is 0. -/
theorem C10_witness : (computeCalcs negRevenueState).revenuePerDay = 0 :=
  (C10_theorem negRevenueState (by norm_num [negRevenueState, defaultState])).2.1
